import Mathlib

/-!
Verification of the LlamaHub query-execution subsystem against its specification.

Shallow embedding of:
- `gpt_index/indices/prompt_helper.py` (PromptHelper)
- `gpt_index/docstore.py` (DocumentStore)
- `gpt_index/indices/query/query_runner.py` (QueryRunner config resolution and kwargs)
- `gpt_index/indices/query/graph_query_engine.py` (ComposableGraphQueryEngine)

Python integers are modelled as `Int` (Python `//` is floor division, `Int.fdiv`);
Python dicts over string keys are modelled as association lists with first-match
lookup and overwrite-on-insert; code that can raise is modelled in `Except`.
-/

namespace LlamaHub

/-! ### Python dict model (string-keyed) -/

/-- Lookup in a string-keyed dict modelled as an association list (first match wins;
`pyDictInsert` keeps at most one binding per key, matching Python dict semantics). -/
def pyDictGet {β : Type} : List (String × β) → String → Option β
  | [], _ => none
  | (k', v) :: d, k => if k' == k then some v else pyDictGet d k

/-- Remove every binding of a key. -/
def pyDictRemove {β : Type} : List (String × β) → String → List (String × β)
  | [], _ => []
  | (k', v) :: d, k => if k' == k then pyDictRemove d k else (k', v) :: pyDictRemove d k

/-- Python `d[k] = v`: overwrite the binding of `k`. -/
def pyDictInsert {β : Type} (d : List (String × β)) (k : String) (v : β) :
    List (String × β) :=
  (k, v) :: pyDictRemove d k

/-- Python `k in d`. -/
def pyDictContains {β : Type} (d : List (String × β)) (k : String) : Bool :=
  (pyDictGet d k).isSome

theorem pyDictGet_remove_self {β : Type} (d : List (String × β)) (k : String) :
    pyDictGet (pyDictRemove d k) k = none := by
  induction d with
  | nil => rfl
  | cons kv d ih =>
    obtain ⟨k', v⟩ := kv
    by_cases h : k' = k
    · simp [pyDictRemove, h, ih]
    · simp only [pyDictRemove, beq_iff_eq, if_neg h]
      simp [pyDictGet, h, ih]

theorem pyDictGet_remove_ne {β : Type} (d : List (String × β)) (k k' : String)
    (h : k' ≠ k) : pyDictGet (pyDictRemove d k) k' = pyDictGet d k' := by
  induction d with
  | nil => rfl
  | cons kv d ih =>
    obtain ⟨k₀, v⟩ := kv
    by_cases h0 : k₀ = k
    · subst h0
      have : ¬(k₀ = k') := fun hc => h (hc ▸ rfl)
      simp [pyDictRemove, pyDictGet, this, ih]
    · simp only [pyDictRemove, beq_iff_eq, if_neg h0]
      by_cases h1 : k₀ = k'
      · simp [pyDictGet, h1]
      · simp [pyDictGet, h1, ih]

theorem pyDictGet_insert_self {β : Type} (d : List (String × β)) (k : String) (v : β) :
    pyDictGet (pyDictInsert d k v) k = some v := by
  simp [pyDictInsert, pyDictGet]

theorem pyDictGet_insert_ne {β : Type} (d : List (String × β)) (k k' : String) (v : β)
    (h : k' ≠ k) : pyDictGet (pyDictInsert d k v) k' = pyDictGet d k' := by
  have : ¬(k = k') := fun hc => h (hc ▸ rfl)
  simp [pyDictInsert, pyDictGet, this, pyDictGet_remove_ne d k k' h]

theorem pyDictGet_mem {β : Type} (d : List (String × β)) (k : String) (v : β)
    (h : pyDictGet d k = some v) : (k, v) ∈ d := by
  induction d with
  | nil => simp [pyDictGet] at h
  | cons kv d ih =>
    obtain ⟨k₀, v₀⟩ := kv
    by_cases h0 : k₀ = k
    · subst h0
      simp [pyDictGet] at h
      simp [h]
    · simp [pyDictGet, h0] at h
      exact List.mem_cons_of_mem _ (ih h)

/-! ### PromptHelper (src/gpt_index/indices/prompt_helper.py) -/

/-- Embeds the `PromptHelper` constructor state: `max_input_size`, `num_output`,
`max_chunk_overlap`, optional `embedding_limit`. -/
structure PromptHelper where
  max_input_size : Int
  num_output : Int
  max_chunk_overlap : Int
  embedding_limit : Option Int
deriving DecidableEq

/-- Embeds `PromptHelper.get_chunk_size_given_prompt`.  The tokenizer
(`globals_helper.tokenizer` followed by `len(...["input_ids"])`) is passed as a
function `tok : String → Nat` giving the prompt's token count.  Python `//` is
floor division, hence `Int.fdiv`.  (Python raises `ZeroDivisionError` when
`num_chunks = 0`; claims about this function assume `num_chunks > 0`.) -/
def PromptHelper.get_chunk_size_given_prompt (ph : PromptHelper) (tok : String → Nat)
    (prompt : String) (num_chunks : Int) (padding : Option Int) : Int :=
  let num_prompt_tokens : Int := tok prompt
  let result := Int.fdiv (ph.max_input_size - num_prompt_tokens - ph.num_output) num_chunks
  let result :=
    match padding with
    | some p => result - p
    | none => result
  match ph.embedding_limit with
  | some lim => min result lim
  | none => result

/-- The spec's chunk-size formula, written from the spec's words:
`floor((max_input_size - prompt_tokens - num_output)/num_chunks) - padding`,
capped at `embedding_limit` when that is set. -/
def chunk_size_spec_formula (ph : PromptHelper) (prompt_tokens num_chunks padding : Int) :
    Int :=
  let base := Int.fdiv (ph.max_input_size - prompt_tokens - ph.num_output) num_chunks - padding
  match ph.embedding_limit with
  | some lim => min base lim
  | none => base

/-! ### PromptHelper.get_numbered_text_from_nodes -/

/-- A node as consumed by PromptHelper (gpt_index.indices.data_structs.Node):
only its text is read here. -/
structure PHNode where
  text : String
deriving DecidableEq

/-- Python string slice `s[:n]`: a nonnegative `n` keeps the first `n` characters,
a negative `n` drops `-n` characters from the end. -/
def pySliceTo (s : String) (n : Int) : String :=
  match n with
  | Int.ofNat m => ⟨s.data.take m⟩
  | Int.negSucc m => ⟨s.data.take (s.data.length - (m + 1))⟩

/-- The loop of `get_numbered_text_from_nodes`: for each node the source computes
`text = f"({number}) {' '.join(node.text.splitlines())}"`, truncates it to
`chunk_size` when one was computed, and then calls `results.append()` **with no
argument** — a `TypeError` on the first iteration.  The computed `text` is
therefore dead; the loop fails as soon as the node list is non-empty. -/
def numbered_loop : List PHNode → Option Int → Except String (List String)
  | [], _ => Except.ok []
  | node :: _, chunk_size =>
    let text := "(1) " ++ String.intercalate " " (node.text.splitOn "\n")
    let _ :=
      match chunk_size with
      | some c => pySliceTo text c
      | none => text
    Except.error "TypeError: list.append() takes exactly one argument (0 given)"

/-- Embeds `PromptHelper.get_numbered_text_from_nodes`.  When a prompt is supplied
the per-node chunk size is computed with `num_chunks = len(node_list)` and
`padding = 5` (an empty node list then makes Python raise `ZeroDivisionError`
inside `get_chunk_size_given_prompt`).  The loop then raises `TypeError` on the
first node because of the argument-less `results.append()` in the source. -/
def PromptHelper.get_numbered_text_from_nodes (ph : PromptHelper) (tok : String → Nat)
    (node_list : List PHNode) (prompt : Option String) : Except String String :=
  match prompt with
  | some p =>
    if node_list.isEmpty then
      Except.error "ZeroDivisionError: integer division or modulo by zero"
    else
      (numbered_loop node_list
        (some (ph.get_chunk_size_given_prompt tok p node_list.length (some 5)))).map
        (String.intercalate "\n\n")
  | none => (numbered_loop node_list none).map (String.intercalate "\n\n")

/-! ### Theorems for C3, C4, C5 -/

/-- C3: for every `max_input_size`, `num_output`, prompt tokenizing to
`tok prompt` tokens, `num_chunks > 0` and `padding`,
`PromptHelper.get_chunk_size_given_prompt` returns
`floor((max_input_size - prompt_tokens - num_output)/num_chunks) - padding`,
capped at `embedding_limit` (minimum of the two) when that limit is set. -/
theorem get_chunk_size_given_prompt_formula (ph : PromptHelper) (tok : String → Nat)
    (prompt : String) (num_chunks padding : Int) (h : 0 < num_chunks) :
    ph.get_chunk_size_given_prompt tok prompt num_chunks (some padding) =
      chunk_size_spec_formula ph (tok prompt) num_chunks padding := by
  rfl

/-- Witness for C3, at the spec's own example: `max_input_size = 4096`,
`num_output = 256`, a 50-token prompt, `num_chunks = 2`, `padding = 1` gives 1894. -/
theorem get_chunk_size_given_prompt_formula_witness :
    (0 : Int) < 2 ∧
      PromptHelper.get_chunk_size_given_prompt ⟨4096, 256, 0, none⟩ (fun _ => 50)
        "scaffold" 2 (some 1) = 1894 :=
  ⟨by decide,
    (get_chunk_size_given_prompt_formula ⟨4096, 256, 0, none⟩ (fun _ => 50)
      "scaffold" 2 1 (by decide)).trans (by decide)⟩

/-- C4 counterexample: with `max_input_size = 10`, `num_output = 8`, no embedding
limit, a 5-token prompt, one chunk and padding 1, the computed chunk size is the
non-positive value `-4`, and `get_chunk_size_given_prompt` returns it normally:
the source raises no error on a non-positive result. -/
theorem get_chunk_size_nonpositive_counterexample :
    PromptHelper.get_chunk_size_given_prompt ⟨10, 8, 0, none⟩ (fun _ => 5) "aaaaa" 1
        (some 1) = -4 ∧
      (-4 : Int) ≤ 0 := by
  constructor
  · rfl
  · decide

/-- C4 amended: when the computed chunk size is non-positive,
`get_chunk_size_given_prompt` silently returns that non-positive value (the
formula value) instead of raising. -/
theorem get_chunk_size_nonpositive_silent (ph : PromptHelper) (tok : String → Nat)
    (prompt : String) (num_chunks padding : Int) (h : 0 < num_chunks)
    (hnp : chunk_size_spec_formula ph (tok prompt) num_chunks padding ≤ 0) :
    ph.get_chunk_size_given_prompt tok prompt num_chunks (some padding) =
        chunk_size_spec_formula ph (tok prompt) num_chunks padding ∧
      ph.get_chunk_size_given_prompt tok prompt num_chunks (some padding) ≤ 0 := by
  refine ⟨rfl, ?_⟩
  have he : ph.get_chunk_size_given_prompt tok prompt num_chunks (some padding) =
      chunk_size_spec_formula ph (tok prompt) num_chunks padding := rfl
  rw [he]
  exact hnp

/-- Witness for the amended C4 at the counterexample input. -/
theorem get_chunk_size_nonpositive_silent_witness :
    PromptHelper.get_chunk_size_given_prompt ⟨10, 8, 0, none⟩ (fun _ => 5) "aaaaa" 1
        (some 1) =
        chunk_size_spec_formula ⟨10, 8, 0, none⟩ 5 1 1 ∧
      PromptHelper.get_chunk_size_given_prompt ⟨10, 8, 0, none⟩ (fun _ => 5) "aaaaa" 1
        (some 1) ≤ 0 :=
  get_chunk_size_nonpositive_silent ⟨10, 8, 0, none⟩ (fun _ => 5) "aaaaa" 1 1
    (by decide) (by decide)

/-- C5 (code bug): on the failing input — a single node with text `"hello"`, no
prompt — `get_numbered_text_from_nodes` raises `TypeError` from the
argument-less `results.append()` instead of returning the numbered text
`"(1) hello"` the claim describes. -/
theorem get_numbered_text_from_nodes_raises_type_error :
    PromptHelper.get_numbered_text_from_nodes ⟨4096, 256, 0, none⟩ (fun _ => 10)
        [⟨"hello"⟩] none =
      Except.error "TypeError: list.append() takes exactly one argument (0 given)" := by
  rfl

/-! ### DocumentStore (src/gpt_index/docstore.py) -/

/-- A stored payload (a `Document` or an `IndexStruct`); `delete_document` never
inspects its contents, so only an id and a body are modelled. -/
structure Doc where
  doc_id : String
  body : String
deriving DecidableEq

/-- Embeds `DocumentStore`: `docs` is a dict from doc id to payload. -/
structure DocumentStore where
  docs : List (String × Doc)
deriving DecidableEq

/-- The store with every binding of `doc_id` removed (the effect of
`self.docs.pop(doc_id, None)` on the dict). -/
def DocumentStore.erase (store : DocumentStore) (doc_id : String) : DocumentStore :=
  ⟨pyDictRemove store.docs doc_id⟩

/-- Embeds `DocumentStore.delete_document`: `doc = self.docs.pop(doc_id, None)`;
if `doc is None and raise_error` raise `ValueError(f"doc_id {doc_id} not found.")`;
else return `doc`.  The result pairs the updated store with the returned value. -/
def DocumentStore.delete_document (store : DocumentStore) (doc_id : String)
    (raise_error : Bool) : Except String (DocumentStore × Option Doc) :=
  match pyDictGet store.docs doc_id with
  | none =>
    if raise_error then Except.error ("doc_id " ++ doc_id ++ " not found.")
    else Except.ok (store, none)
  | some doc => Except.ok (store.erase doc_id, some doc)

/-- C8: deleting a present id removes that entry (its id no longer resolves, all
other ids resolve as before) and returns the stored document, for either value of
`raise_error`; deleting an absent id raises a `ValueError` naming the id when
`raise_error` is true, and returns `None` with the store unchanged when it is
false. -/
theorem delete_document_spec (store : DocumentStore) (doc_id : String) :
    (∀ doc : Doc, pyDictGet store.docs doc_id = some doc →
      ∀ raise_error : Bool,
        store.delete_document doc_id raise_error =
            Except.ok (store.erase doc_id, some doc) ∧
          pyDictGet (store.erase doc_id).docs doc_id = none ∧
          ∀ k : String, k ≠ doc_id →
            pyDictGet (store.erase doc_id).docs k = pyDictGet store.docs k) ∧
    (pyDictGet store.docs doc_id = none →
      store.delete_document doc_id true =
          Except.error ("doc_id " ++ doc_id ++ " not found.") ∧
        store.delete_document doc_id false = Except.ok (store, none)) := by
  constructor
  · intro doc hget raise_error
    refine ⟨?_, ?_, ?_⟩
    · simp [DocumentStore.delete_document, hget]
    · exact pyDictGet_remove_self store.docs doc_id
    · intro k hk
      exact pyDictGet_remove_ne store.docs doc_id k hk
  · intro hget
    constructor
    · simp [DocumentStore.delete_document, hget]
    · simp [DocumentStore.delete_document, hget]

/-- Witness for C8 on the concrete store `{"a" ↦ docA, "b" ↦ docB}`: deleting
`"a"` returns it and leaves `"b"`, deleting the absent `"c"` raises or returns
`None` per the flag. -/
theorem delete_document_spec_witness :
    (DocumentStore.delete_document ⟨[("a", ⟨"a", "A"⟩), ("b", ⟨"b", "B"⟩)]⟩ "a" true =
        Except.ok
          ((DocumentStore.erase ⟨[("a", ⟨"a", "A"⟩), ("b", ⟨"b", "B"⟩)]⟩ "a"),
            some ⟨"a", "A"⟩) ∧
      pyDictGet (DocumentStore.erase ⟨[("a", ⟨"a", "A"⟩), ("b", ⟨"b", "B"⟩)]⟩ "a").docs
          "a" = none ∧
      pyDictGet (DocumentStore.erase ⟨[("a", ⟨"a", "A"⟩), ("b", ⟨"b", "B"⟩)]⟩ "a").docs
          "b" = some ⟨"b", "B"⟩) ∧
    (DocumentStore.delete_document ⟨[("a", ⟨"a", "A"⟩), ("b", ⟨"b", "B"⟩)]⟩ "c" true =
        Except.error "doc_id c not found." ∧
      DocumentStore.delete_document ⟨[("a", ⟨"a", "A"⟩), ("b", ⟨"b", "B"⟩)]⟩ "c" false =
        Except.ok (⟨[("a", ⟨"a", "A"⟩), ("b", ⟨"b", "B"⟩)]⟩, none)) := by
  have h := delete_document_spec ⟨[("a", ⟨"a", "A"⟩), ("b", ⟨"b", "B"⟩)]⟩ "a"
  have h1 := h.1 ⟨"a", "A"⟩ (by decide) true
  have h2 := delete_document_spec ⟨[("a", ⟨"a", "A"⟩), ("b", ⟨"b", "B"⟩)]⟩ "c"
  have h3 := h2.2 (by decide)
  exact ⟨⟨h1.1, h1.2.1, h1.2.2 "b" (by decide)⟩, h3.1, h3.2⟩

/-! ### QueryRunner (src/gpt_index/indices/query/query_runner.py) -/

/-- Modelled from the spec: `QueryMode` (gpt_index/indices/query/schema.py is not in
the source tree) — a mode tag whose `DEFAULT` member is the synthesized default;
other members are carried as their string tag. -/
inductive QueryMode where
  | DEFAULT
  | other (tag : String)
deriving DecidableEq

/-- Modelled from the spec: `QueryConfig` (gpt_index/indices/query/schema.py is not
in the source tree) — per-index-struct-type (or per-specific-id) configuration:
the struct type it applies to, a retrieval mode, extra keyword arguments (a dict
with values of type `α`), and an optional specific index-struct id.  Its optional
transform/combiner overrides play no part in the claims settled here. -/
structure QueryConfig (α : Type) where
  index_struct_type : String
  query_mode : QueryMode
  query_kwargs : List (String × α)
  index_struct_id : Option String
deriving DecidableEq

/-- An index struct as consulted by the runner: `get_doc_id()` and `get_type()`. -/
structure IndexStruct where
  doc_id : String
  struct_type : String
deriving DecidableEq

/-- The runner's `_type_to_config_dict` and `_id_to_config_dict`. -/
structure ConfigMaps (α : Type) where
  type_to_config_dict : List (String × QueryConfig α)
  id_to_config_dict : List (String × QueryConfig α)

/-- The `for qc in query_config_objs` loop of `QueryRunner.__init__`: every config
is registered under its struct type, and additionally under its id when it has
one (later configs overwrite earlier ones with the same key). -/
def buildConfigMapsAux {α : Type} : ConfigMaps α → List (QueryConfig α) → ConfigMaps α
  | acc, [] => acc
  | acc, qc :: rest =>
    buildConfigMapsAux
      { type_to_config_dict :=
          pyDictInsert acc.type_to_config_dict qc.index_struct_type qc
        id_to_config_dict :=
          match qc.index_struct_id with
          | some i => pyDictInsert acc.id_to_config_dict i qc
          | none => acc.id_to_config_dict }
      rest

/-- Embeds the config-map construction of `QueryRunner.__init__` starting from
empty dicts. -/
def buildConfigMaps {α : Type} (configs : List (QueryConfig α)) : ConfigMaps α :=
  buildConfigMapsAux ⟨[], []⟩ configs

/-- Embeds `QueryRunner._get_query_config`: the id-keyed config if the struct's id
is registered, else the type-keyed config if its type is, else a fresh
`QueryConfig(index_struct_type=..., query_mode=QueryMode.DEFAULT)`. -/
def get_query_config {α : Type} (maps : ConfigMaps α) (index_struct : IndexStruct) :
    QueryConfig α :=
  match pyDictGet maps.id_to_config_dict index_struct.doc_id with
  | some config => config
  | none =>
    match pyDictGet maps.type_to_config_dict index_struct.struct_type with
    | some config => config
    | none => ⟨index_struct.struct_type, QueryMode.DEFAULT, [], none⟩

/-- Every binding of the id map is a supplied config registered under its own id. -/
def IdMapOk {α : Type} (configs : List (QueryConfig α))
    (m : List (String × QueryConfig α)) : Prop :=
  ∀ k qc, pyDictGet m k = some qc → qc ∈ configs ∧ qc.index_struct_id = some k

/-- Every binding of the type map is a supplied config registered under its own
struct type. -/
def TypeMapOk {α : Type} (configs : List (QueryConfig α))
    (m : List (String × QueryConfig α)) : Prop :=
  ∀ k qc, pyDictGet m k = some qc → qc ∈ configs ∧ qc.index_struct_type = k

theorem pyDictGet_insert_cases {β : Type} (d : List (String × β)) (k k' : String)
    (v w : β) (h : pyDictGet (pyDictInsert d k v) k' = some w) :
    (k' = k ∧ w = v) ∨ (k' ≠ k ∧ pyDictGet d k' = some w) := by
  by_cases hk : k' = k
  · subst hk
    rw [pyDictGet_insert_self] at h
    exact Or.inl ⟨rfl, (Option.some.injEq _ _ ▸ h).symm⟩
  · rw [pyDictGet_insert_ne d k k' v hk] at h
    exact Or.inr ⟨hk, h⟩

theorem buildConfigMapsAux_ok {α : Type} (configs cs : List (QueryConfig α)) :
    ∀ acc : ConfigMaps α,
      (∀ qc ∈ cs, qc ∈ configs) →
      IdMapOk configs acc.id_to_config_dict →
      TypeMapOk configs acc.type_to_config_dict →
      IdMapOk configs (buildConfigMapsAux acc cs).id_to_config_dict ∧
        TypeMapOk configs (buildConfigMapsAux acc cs).type_to_config_dict := by
  induction cs with
  | nil => intro acc _ hid hty; exact ⟨hid, hty⟩
  | cons qc rest ih =>
    intro acc hsub hid hty
    have hqc_mem : qc ∈ configs := hsub qc (List.mem_cons_self qc rest)
    have hrest : ∀ x ∈ rest, x ∈ configs :=
      fun x hx => hsub x (List.mem_cons_of_mem _ hx)
    rw [buildConfigMapsAux]
    apply ih _ hrest
    · intro k w hw
      cases hqi : qc.index_struct_id with
      | none =>
        rw [hqi] at hw
        exact hid k w hw
      | some i =>
        rw [hqi] at hw
        rcases pyDictGet_insert_cases _ _ _ _ _ hw with ⟨hk, hv⟩ | ⟨_, hget⟩
        · subst hk; subst hv; exact ⟨hqc_mem, hqi⟩
        · exact hid k w hget
    · intro k w hw
      rcases pyDictGet_insert_cases _ _ _ _ _ hw with ⟨hk, hv⟩ | ⟨_, hget⟩
      · subst hk; subst hv; exact ⟨hqc_mem, rfl⟩
      · exact hty k w hget

theorem buildConfigMapsAux_id_mono {α : Type} (cs : List (QueryConfig α)) :
    ∀ (acc : ConfigMaps α) (k : String),
      (pyDictGet acc.id_to_config_dict k).isSome →
      (pyDictGet (buildConfigMapsAux acc cs).id_to_config_dict k).isSome := by
  induction cs with
  | nil => intro acc k h; exact h
  | cons qc rest ih =>
    intro acc k h
    rw [buildConfigMapsAux]
    apply ih
    cases hqi : qc.index_struct_id with
    | none => exact h
    | some i =>
      by_cases hk : k = i
      · subst hk; rw [pyDictGet_insert_self]; rfl
      · rw [pyDictGet_insert_ne _ _ _ _ hk]; exact h

theorem buildConfigMapsAux_type_mono {α : Type} (cs : List (QueryConfig α)) :
    ∀ (acc : ConfigMaps α) (k : String),
      (pyDictGet acc.type_to_config_dict k).isSome →
      (pyDictGet (buildConfigMapsAux acc cs).type_to_config_dict k).isSome := by
  induction cs with
  | nil => intro acc k h; exact h
  | cons qc rest ih =>
    intro acc k h
    rw [buildConfigMapsAux]
    apply ih
    by_cases hk : k = qc.index_struct_type
    · subst hk; rw [pyDictGet_insert_self]; rfl
    · rw [pyDictGet_insert_ne _ _ _ _ hk]; exact h

theorem buildConfigMapsAux_id_complete {α : Type} (cs : List (QueryConfig α)) :
    ∀ (acc : ConfigMaps α) (k : String),
      (∃ qc ∈ cs, qc.index_struct_id = some k) →
      (pyDictGet (buildConfigMapsAux acc cs).id_to_config_dict k).isSome := by
  induction cs with
  | nil => intro acc k h; exact absurd h (by simp)
  | cons qc rest ih =>
    intro acc k h
    rw [buildConfigMapsAux]
    rcases h with ⟨w, hw_mem, hw_id⟩
    rcases List.mem_cons.mp hw_mem with hw_head | hw_rest
    · subst hw_head
      apply buildConfigMapsAux_id_mono
      rw [hw_id, pyDictGet_insert_self]
      rfl
    · exact ih _ k ⟨w, hw_rest, hw_id⟩

theorem buildConfigMapsAux_type_complete {α : Type} (cs : List (QueryConfig α)) :
    ∀ (acc : ConfigMaps α) (k : String),
      (∃ qc ∈ cs, qc.index_struct_type = k) →
      (pyDictGet (buildConfigMapsAux acc cs).type_to_config_dict k).isSome := by
  induction cs with
  | nil => intro acc k h; exact absurd h (by simp)
  | cons qc rest ih =>
    intro acc k h
    rw [buildConfigMapsAux]
    rcases h with ⟨w, hw_mem, hw_ty⟩
    rcases List.mem_cons.mp hw_mem with hw_head | hw_rest
    · subst hw_head
      apply buildConfigMapsAux_type_mono
      rw [hw_ty, pyDictGet_insert_self]
      rfl
    · exact ih _ k ⟨w, hw_rest, hw_ty⟩

theorem buildConfigMaps_ok {α : Type} (configs : List (QueryConfig α)) :
    IdMapOk configs (buildConfigMaps configs).id_to_config_dict ∧
      TypeMapOk configs (buildConfigMaps configs).type_to_config_dict :=
  buildConfigMapsAux_ok configs configs ⟨[], []⟩ (fun _ h => h)
    (fun _ _ h => by simp [pyDictGet] at h) (fun _ _ h => by simp [pyDictGet] at h)

/-- C2: for every supplied config list (in any order) and index struct, the
resolved config is: a supplied config registered under the struct's id when one
exists; otherwise a supplied config registered under the struct's type when one
exists; otherwise a freshly synthesized `QueryConfig` for that type with mode
`DEFAULT`. -/
theorem get_query_config_precedence {α : Type} (configs : List (QueryConfig α))
    (s : IndexStruct) :
    ((∃ qc ∈ configs, qc.index_struct_id = some s.doc_id) →
      get_query_config (buildConfigMaps configs) s ∈ configs ∧
        (get_query_config (buildConfigMaps configs) s).index_struct_id =
          some s.doc_id) ∧
    ((∀ qc ∈ configs, qc.index_struct_id ≠ some s.doc_id) →
      (∃ qc ∈ configs, qc.index_struct_type = s.struct_type) →
      get_query_config (buildConfigMaps configs) s ∈ configs ∧
        (get_query_config (buildConfigMaps configs) s).index_struct_type =
          s.struct_type) ∧
    ((∀ qc ∈ configs, qc.index_struct_id ≠ some s.doc_id) →
      (∀ qc ∈ configs, qc.index_struct_type ≠ s.struct_type) →
      get_query_config (buildConfigMaps configs) s =
        ⟨s.struct_type, QueryMode.DEFAULT, [], none⟩) := by
  obtain ⟨hid_ok, hty_ok⟩ := buildConfigMaps_ok configs
  have hid_none : (∀ qc ∈ configs, qc.index_struct_id ≠ some s.doc_id) →
      pyDictGet (buildConfigMaps configs).id_to_config_dict s.doc_id = none := by
    intro hno
    cases hq : pyDictGet (buildConfigMaps configs).id_to_config_dict s.doc_id with
    | none => rfl
    | some c =>
      obtain ⟨hmem, hcid⟩ := hid_ok _ _ hq
      exact absurd hcid (hno c hmem)
  refine ⟨?_, ?_, ?_⟩
  · intro hex
    have hsome := buildConfigMapsAux_id_complete configs ⟨[], []⟩ s.doc_id hex
    rw [show buildConfigMapsAux (⟨[], []⟩ : ConfigMaps α) configs =
        buildConfigMaps configs from rfl] at hsome
    cases hq : pyDictGet (buildConfigMaps configs).id_to_config_dict s.doc_id with
    | none => rw [hq] at hsome; exact absurd hsome (by simp)
    | some c =>
      have : get_query_config (buildConfigMaps configs) s = c := by
        simp [get_query_config, hq]
      rw [this]
      exact hid_ok _ _ hq
  · intro hno hex
    have hq0 := hid_none hno
    have hsome := buildConfigMapsAux_type_complete configs ⟨[], []⟩ s.struct_type hex
    rw [show buildConfigMapsAux (⟨[], []⟩ : ConfigMaps α) configs =
        buildConfigMaps configs from rfl] at hsome
    cases hq : pyDictGet (buildConfigMaps configs).type_to_config_dict s.struct_type with
    | none => rw [hq] at hsome; exact absurd hsome (by simp)
    | some c =>
      have : get_query_config (buildConfigMaps configs) s = c := by
        simp [get_query_config, hq0, hq]
      rw [this]
      exact hty_ok _ _ hq
  · intro hno hnoty
    have hq0 := hid_none hno
    have hq1 : pyDictGet (buildConfigMaps configs).type_to_config_dict s.struct_type =
        none := by
      cases hq : pyDictGet (buildConfigMaps configs).type_to_config_dict
          s.struct_type with
      | none => rfl
      | some c =>
        obtain ⟨hmem, hcty⟩ := hty_ok _ _ hq
        exact absurd hcty (hnoty c hmem)
    simp [get_query_config, hq0, hq1]

/-- The spec scenario's config list: a config keyed by id "A" and a config keyed
by type "tree". -/
def specScenarioConfigs : List (QueryConfig Unit) :=
  [⟨"tree", QueryMode.DEFAULT, [], some "A"⟩,
    ⟨"tree", QueryMode.other "retrieve", [], none⟩]

/-- Witness for C2, at the spec's scenario: a struct (id "A", type "tree")
resolves to a supplied id-keyed config, a struct (id "B", type "tree") to a
supplied type-keyed config, and a struct (id "C", type "keyword_table") to the
synthesized default. -/
theorem get_query_config_precedence_witness :
    (get_query_config (buildConfigMaps specScenarioConfigs) ⟨"A", "tree"⟩ ∈
          specScenarioConfigs ∧
        (get_query_config (buildConfigMaps specScenarioConfigs)
            ⟨"A", "tree"⟩).index_struct_id = some "A") ∧
      (get_query_config (buildConfigMaps specScenarioConfigs) ⟨"B", "tree"⟩ ∈
          specScenarioConfigs ∧
        (get_query_config (buildConfigMaps specScenarioConfigs)
            ⟨"B", "tree"⟩).index_struct_type = "tree") ∧
      get_query_config (buildConfigMaps specScenarioConfigs) ⟨"C", "keyword_table"⟩ =
        (⟨"keyword_table", QueryMode.DEFAULT, [], none⟩ : QueryConfig Unit) :=
  ⟨(get_query_config_precedence specScenarioConfigs ⟨"A", "tree"⟩).1 (by decide),
    (get_query_config_precedence specScenarioConfigs ⟨"B", "tree"⟩).2.1 (by decide)
      (by decide),
    (get_query_config_precedence specScenarioConfigs ⟨"C", "keyword_table"⟩).2.2
      (by decide) (by decide)⟩

/-! ### QueryRunner._get_query_kwargs -/

/-- Python's `if key not in d: d[key] = v`. -/
def pySetDefault {β : Type} (d : List (String × β)) (k : String) (v : β) :
    List (String × β) :=
  if pyDictContains d k then d else pyDictInsert d k v

/-- The runner-held default collaborators injected into query objects.  The
source reads them as `self._prompt_helper`, `self._llm_predictor`,
`self._embed_model`; those attributes are not assigned in `QueryRunner.__init__`
and `BaseQueryRunner` (gpt_index/indices/query/base.py) is not in the source
tree, so, modelled from the spec, the runner holds the three defaults and they
are passed here explicitly. -/
structure QueryRunnerDefaults (α : Type) where
  prompt_helper : α
  llm_predictor : α
  embed_model : α

/-- Embeds `QueryRunner._get_query_kwargs`: copy the config's `query_kwargs`,
then fill in `prompt_helper`, `llm_predictor` and `embed_model` from the
runner's defaults only when the key is absent. -/
def get_query_kwargs {α : Type} (defaults : QueryRunnerDefaults α)
    (config : QueryConfig α) : List (String × α) :=
  let query_kwargs := config.query_kwargs
  let query_kwargs := pySetDefault query_kwargs "prompt_helper" defaults.prompt_helper
  let query_kwargs := pySetDefault query_kwargs "llm_predictor" defaults.llm_predictor
  pySetDefault query_kwargs "embed_model" defaults.embed_model

theorem pyDictGet_setDefault {β : Type} (d : List (String × β)) (k : String) (v : β)
    (k' : String) :
    pyDictGet (pySetDefault d k v) k' =
      match pyDictGet d k' with
      | some w => some w
      | none => if k' = k then some v else none := by
  by_cases hc : pyDictContains d k
  · rw [pySetDefault, if_pos hc]
    cases hd : pyDictGet d k' with
    | some w => rfl
    | none =>
      by_cases hk : k' = k
      · subst hk
        rw [pyDictContains, hd] at hc
        exact absurd hc (by simp)
      · simp [hk]
  · rw [pySetDefault, if_neg hc]
    by_cases hk : k' = k
    · subst hk
      rw [pyDictGet_insert_self]
      have hd : pyDictGet d k' = none := by
        cases hd : pyDictGet d k' with
        | none => rfl
        | some w => rw [pyDictContains, hd] at hc; exact absurd rfl hc
      rw [hd]
      simp
    · rw [pyDictGet_insert_ne d k k' v hk]
      cases hd : pyDictGet d k' with
      | some w => rfl
      | none => simp [hk]

/-- C6: the kwargs passed to the query object are the config's kwargs with the
runner defaults for `prompt_helper`, `llm_predictor` and `embed_model` filled in
only for keys absent from the config's kwargs — a key explicitly present is
never overwritten, every other key is untouched, and all three collaborator
keys are present in the result whether or not they were supplied explicitly. -/
theorem get_query_kwargs_spec {α : Type} (defaults : QueryRunnerDefaults α)
    (config : QueryConfig α) :
    (∀ k : String,
      pyDictGet (get_query_kwargs defaults config) k =
        match pyDictGet config.query_kwargs k with
        | some v => some v
        | none =>
          if k = "prompt_helper" then some defaults.prompt_helper
          else if k = "llm_predictor" then some defaults.llm_predictor
          else if k = "embed_model" then some defaults.embed_model
          else none) ∧
    (pyDictGet (get_query_kwargs defaults config) "prompt_helper").isSome ∧
    (pyDictGet (get_query_kwargs defaults config) "llm_predictor").isSome ∧
    (pyDictGet (get_query_kwargs defaults config) "embed_model").isSome := by
  have main : ∀ k : String,
      pyDictGet (get_query_kwargs defaults config) k =
        match pyDictGet config.query_kwargs k with
        | some v => some v
        | none =>
          if k = "prompt_helper" then some defaults.prompt_helper
          else if k = "llm_predictor" then some defaults.llm_predictor
          else if k = "embed_model" then some defaults.embed_model
          else none := by
    intro k
    show pyDictGet
        (pySetDefault
          (pySetDefault (pySetDefault config.query_kwargs "prompt_helper"
            defaults.prompt_helper) "llm_predictor" defaults.llm_predictor)
          "embed_model" defaults.embed_model) k = _
    rw [pyDictGet_setDefault, pyDictGet_setDefault, pyDictGet_setDefault]
    cases hq : pyDictGet config.query_kwargs k with
    | some v => rfl
    | none =>
      by_cases h1 : k = "prompt_helper"
      · subst h1; simp
      · by_cases h2 : k = "llm_predictor"
        · subst h2; simp
        · by_cases h3 : k = "embed_model"
          · subst h3; simp
          · simp [h1, h2, h3]
  refine ⟨main, ?_, ?_, ?_⟩
  · rw [main "prompt_helper"]
    cases hq : pyDictGet config.query_kwargs "prompt_helper" <;> simp
  · rw [main "llm_predictor"]
    cases hq : pyDictGet config.query_kwargs "llm_predictor" <;> simp
  · rw [main "embed_model"]
    cases hq : pyDictGet config.query_kwargs "embed_model" <;> simp

/-! ### ComposableGraphQueryEngine (src/gpt_index/indices/query/graph_query_engine.py) -/

/-- Node content (gpt_index.data_structs.node_v2): a plain `Node` with text, or an
`IndexNode` additionally carrying the `index_id` of a nested index. -/
inductive NodeContent where
  | plain (text : String)
  | index (text : String) (index_id : String)
deriving DecidableEq

/-- `NodeWithScore`: a node paired with an optional retrieval score.  The engine
only carries scores through, so their numeric type is immaterial; they are
modelled as `Option Int`. -/
structure NodeWithScore where
  node : NodeContent
  score : Option Int
deriving DecidableEq

/-- `QueryBundle`: the query request as consumed by this engine (only the query
string matters here; it is passed through unchanged). -/
structure QueryBundle where
  query_str : String
deriving DecidableEq

/-- `Response` (gpt_index.response.schema, not in the source tree — modelled from
the spec: synthesized text plus the ordered list of contributing scored source
nodes; `str(response)` is the synthesized text). -/
structure Response where
  response : String
  source_nodes : List NodeWithScore
deriving DecidableEq

/-- The engine's state and collaborators: the graph's root id, the `recursive`
flag, the per-index retrieval step (`self._custom_retrievers[index_id]` if
present, else `self._graph.get_index(index_id).as_retriever()`, collapsed into
one total function), and the response synthesizer
(`ResponseSynthesizer.synthesize(query_bundle, nodes, additional_source_nodes)`,
not in the source tree — modelled from the spec, with the omitted
`additional_source_nodes` argument of the non-recursive call defaulting to the
empty list). -/
structure GraphQueryEngine where
  root_id : String
  recursive : Bool
  retrieve : String → QueryBundle → List NodeWithScore
  synthesize : QueryBundle → List NodeWithScore → List NodeWithScore → Response

/-- Python `index_id = index_id or self._graph.root_id` (both `None` and the
empty string fall back to the root id). -/
def resolveIndexId (eng : GraphQueryEngine) : Option String → String
  | none => eng.root_id
  | some s => if s = "" then eng.root_id else s

/-- Embeds `ComposableGraphQueryEngine._fetch_recursive_nodes`, with the
recursive `self._query_index(query_bundle, ·, ·)` call abstracted as `child`:
an `IndexNode` is replaced by a plain-text node holding the child response's
text with the original score, plus the child response's source nodes; any other
node is returned unchanged with an empty source list. -/
def fetch_recursive_nodes_with (child : Option String → Int → Option Response)
    (node_with_score : NodeWithScore) (level : Int) :
    Option (NodeWithScore × List NodeWithScore) :=
  match node_with_score.node with
  | NodeContent.index _ child_id =>
    match child (some child_id) (level + 1) with
    | none => none
    | some response =>
      some (⟨NodeContent.plain response.response, node_with_score.score⟩,
        response.source_nodes)
  | NodeContent.plain _ => some (node_with_score, [])

/-- The `for node_with_score in nodes` loop of `_query_index`: apply `f` to each
retrieved node, collecting the (possibly substituted) nodes in order and
extending the additional source nodes in order. -/
def fetch_loop (f : NodeWithScore → Option (NodeWithScore × List NodeWithScore)) :
    List NodeWithScore → Option (List NodeWithScore × List NodeWithScore)
  | [] => some ([], [])
  | nws :: rest =>
    match f nws with
    | none => none
    | some (nws', srcs) =>
      match fetch_loop f rest with
      | none => none
      | some (nodes_for_synthesis, additional_source_nodes) =>
        some (nws' :: nodes_for_synthesis, srcs ++ additional_source_nodes)

/-- Embeds `ComposableGraphQueryEngine._query_index`.  The source recursion is
unbounded (a cyclic graph diverges); `fuel` bounds the recursion depth in the
embedding and `none` models a computation that runs out of fuel.  With
`recursive` set, each retrieved node goes through `_fetch_recursive_nodes` and
synthesis receives the substituted nodes plus the accumulated additional source
nodes; otherwise synthesis receives the raw retrieved nodes directly. -/
def query_index (eng : GraphQueryEngine) :
    Nat → QueryBundle → Option String → Int → Option Response
  | 0, _, _, _ => none
  | fuel + 1, query_bundle, index_id?, level =>
    let index_id := resolveIndexId eng index_id?
    let nodes := eng.retrieve index_id query_bundle
    if eng.recursive then
      match fetch_loop
          (fun nws =>
            fetch_recursive_nodes_with
              (fun iid lvl => query_index eng fuel query_bundle iid lvl) nws level)
          nodes with
      | none => none
      | some (nodes_for_synthesis, additional_source_nodes) =>
        some (eng.synthesize query_bundle nodes_for_synthesis additional_source_nodes)
    else
      some (eng.synthesize query_bundle nodes [])

/-- `_fetch_recursive_nodes` with the engine's own `_query_index` (at the given
fuel) as the recursive call. -/
def fetch_recursive_nodes (eng : GraphQueryEngine) (fuel : Nat)
    (query_bundle : QueryBundle) (node_with_score : NodeWithScore) (level : Int) :
    Option (NodeWithScore × List NodeWithScore) :=
  fetch_recursive_nodes_with (fun iid lvl => query_index eng fuel query_bundle iid lvl)
    node_with_score level

/-- Embeds `ComposableGraphQueryEngine._query`:
`self._query_index(query_bundle, index_id=None, level=0)`. -/
def graph_query (eng : GraphQueryEngine) (fuel : Nat) (query_bundle : QueryBundle) :
    Option Response :=
  query_index eng fuel query_bundle none 0

/-- Embeds `ComposableGraphQueryEngine._aquery`: it returns
`self._query_index(query_bundle, index_id=None, level=0)` with no awaited step. -/
def graph_aquery (eng : GraphQueryEngine) (fuel : Nat) (query_bundle : QueryBundle) :
    Option Response :=
  query_index eng fuel query_bundle none 0

/-! ### Theorems for C1, C7, C9, C10 -/

theorem fetch_loop_congr
    (f g : NodeWithScore → Option (NodeWithScore × List NodeWithScore))
    (h : ∀ n, f n = g n) :
    ∀ ns : List NodeWithScore, fetch_loop f ns = fetch_loop g ns := by
  intro ns
  induction ns with
  | nil => rfl
  | cons n rest ih => rw [fetch_loop, fetch_loop, h n, ih]

/-- C1: `_fetch_recursive_nodes` replaces an `IndexNode` by a plain-text node
holding the child `_query_index` response (run at `level + 1`) with the original
score, returning the child response's source nodes for upward merging; any other
node passes through unchanged with an empty source list; and in recursive mode
`_query_index` synthesizes from the substituted nodes together with the
concatenated additional source nodes. -/
theorem fetch_recursive_nodes_spec (eng : GraphQueryEngine) (fuel : Nat)
    (query_bundle : QueryBundle) (level : Int) :
    (∀ (nws : NodeWithScore) (t cid : String) (resp : Response),
      nws.node = NodeContent.index t cid →
      query_index eng fuel query_bundle (some cid) (level + 1) = some resp →
      fetch_recursive_nodes eng fuel query_bundle nws level =
        some (⟨NodeContent.plain resp.response, nws.score⟩, resp.source_nodes)) ∧
    (∀ (nws : NodeWithScore) (t : String),
      nws.node = NodeContent.plain t →
      fetch_recursive_nodes eng fuel query_bundle nws level = some (nws, [])) ∧
    (eng.recursive = true →
      ∀ (index_id? : Option String)
        (nodes_for_synthesis additional_source_nodes : List NodeWithScore),
        fetch_loop (fun nws => fetch_recursive_nodes eng fuel query_bundle nws level)
            (eng.retrieve (resolveIndexId eng index_id?) query_bundle) =
          some (nodes_for_synthesis, additional_source_nodes) →
        query_index eng (fuel + 1) query_bundle index_id? level =
          some (eng.synthesize query_bundle nodes_for_synthesis
            additional_source_nodes)) := by
  refine ⟨?_, ?_, ?_⟩
  · intro nws t cid resp hnode hq
    rw [fetch_recursive_nodes, fetch_recursive_nodes_with, hnode]
    simp [hq]
  · intro nws t hnode
    rw [fetch_recursive_nodes, fetch_recursive_nodes_with, hnode]
  · intro hr index_id? nodes_for_synthesis additional_source_nodes hfl
    simp only [fetch_recursive_nodes] at hfl
    rw [query_index]
    simp only [hr, if_true, hfl]

/-- A text projection used only by the concrete synthesizer of the witnesses. -/
def nodeText : NodeContent → String
  | NodeContent.plain t => t
  | NodeContent.index t _ => t

/-- The spec's 2-level composable graph: the root index retrieves one `IndexNode`
(score 7) pointing at "child"; the child index retrieves one plain leaf node
(score 3); the synthesizer joins node texts and records `nodes ++ extra` as the
response's source nodes. -/
def specGraphEngine : GraphQueryEngine where
  root_id := "root"
  recursive := true
  retrieve := fun index_id _ =>
    if index_id = "root" then [⟨NodeContent.index "ref" "child", some 7⟩]
    else if index_id = "child" then [⟨NodeContent.plain "leaf", some 3⟩]
    else []
  synthesize := fun _ nodes extra =>
    ⟨String.intercalate "|" (nodes.map fun n => nodeText n.node), nodes ++ extra⟩

/-- Witness for C1 on the spec's 2-level graph: the root's `IndexNode` is replaced
by a plain node carrying the child's synthesized text with score 7 preserved and
the child's leaf as additional source; a plain node passes through unchanged;
and the full recursive query synthesizes from the substituted node plus the
child's source nodes, so the final source nodes are the substituted parent-level
node and the child-level leaf. -/
theorem fetch_recursive_nodes_spec_witness :
    (fetch_recursive_nodes specGraphEngine 1 ⟨"q"⟩
        ⟨NodeContent.index "ref" "child", some 7⟩ 0 =
      some (⟨NodeContent.plain "leaf", some 7⟩, [⟨NodeContent.plain "leaf", some 3⟩])) ∧
    (fetch_recursive_nodes specGraphEngine 1 ⟨"q"⟩ ⟨NodeContent.plain "p", some 5⟩ 0 =
      some (⟨NodeContent.plain "p", some 5⟩, [])) ∧
    (query_index specGraphEngine 2 ⟨"q"⟩ none 0 =
      some (specGraphEngine.synthesize ⟨"q"⟩ [⟨NodeContent.plain "leaf", some 7⟩]
        [⟨NodeContent.plain "leaf", some 3⟩])) ∧
    (query_index specGraphEngine 2 ⟨"q"⟩ none 0 =
      some ⟨"leaf",
        [⟨NodeContent.plain "leaf", some 7⟩, ⟨NodeContent.plain "leaf", some 3⟩]⟩) :=
  ⟨(fetch_recursive_nodes_spec specGraphEngine 1 ⟨"q"⟩ 0).1
      ⟨NodeContent.index "ref" "child", some 7⟩ "ref" "child"
      ⟨"leaf", [⟨NodeContent.plain "leaf", some 3⟩]⟩ rfl (by rfl),
    (fetch_recursive_nodes_spec specGraphEngine 1 ⟨"q"⟩ 0).2.1
      ⟨NodeContent.plain "p", some 5⟩ "p" rfl,
    (fetch_recursive_nodes_spec specGraphEngine 1 ⟨"q"⟩ 0).2.2 rfl none
      [⟨NodeContent.plain "leaf", some 7⟩] [⟨NodeContent.plain "leaf", some 3⟩]
      (by rfl),
    ((fetch_recursive_nodes_spec specGraphEngine 1 ⟨"q"⟩ 0).2.2 rfl none
        [⟨NodeContent.plain "leaf", some 7⟩] [⟨NodeContent.plain "leaf", some 3⟩]
        (by rfl)).trans (by rfl)⟩

/-- C7: with `recursive` disabled, `_query_index` synthesizes directly from the
raw retrieved nodes with no additional source nodes and no error, attempting no
child-index resolution (the result is a direct function of this index's
retrieval only). -/
theorem query_index_nonrecursive (eng : GraphQueryEngine) (fuel : Nat)
    (query_bundle : QueryBundle) (index_id? : Option String) (level : Int)
    (h : eng.recursive = false) :
    query_index eng (fuel + 1) query_bundle index_id? level =
      some (eng.synthesize query_bundle
        (eng.retrieve (resolveIndexId eng index_id?) query_bundle) []) := by
  rw [query_index]
  simp [h]

/-- The 2-level graph again, with `recursive` disabled. -/
def specGraphEngineNoRec : GraphQueryEngine :=
  { specGraphEngine with recursive := false }

/-- Witness for C7: with `recursive = False` the root query returns the
`IndexNode` in its own (non-resolved) representation, with no child resolution
and no additional sources. -/
theorem query_index_nonrecursive_witness :
    specGraphEngineNoRec.recursive = false ∧
    query_index specGraphEngineNoRec 1 ⟨"q"⟩ none 0 =
      some (specGraphEngineNoRec.synthesize ⟨"q"⟩
        (specGraphEngineNoRec.retrieve (resolveIndexId specGraphEngineNoRec none)
          ⟨"q"⟩) []) ∧
    query_index specGraphEngineNoRec 1 ⟨"q"⟩ none 0 =
      some ⟨"ref", [⟨NodeContent.index "ref" "child", some 7⟩]⟩ :=
  ⟨rfl, query_index_nonrecursive specGraphEngineNoRec 0 ⟨"q"⟩ none 0 rfl,
    (query_index_nonrecursive specGraphEngineNoRec 0 ⟨"q"⟩ none 0 rfl).trans (by rfl)⟩

/-- C9: the `level` argument of `_query_index` does not influence the returned
`Response`: two runs differing only in `level` (same engine, fuel, bundle and
index id) produce equal results. -/
theorem query_index_level_irrelevant (eng : GraphQueryEngine) (fuel : Nat) :
    ∀ (query_bundle : QueryBundle) (index_id? : Option String) (level level' : Int),
      query_index eng fuel query_bundle index_id? level =
        query_index eng fuel query_bundle index_id? level' := by
  induction fuel with
  | zero => intro _ _ _ _; rfl
  | succ n ih =>
    intro query_bundle index_id? level level'
    rw [query_index, query_index]
    cases hr : eng.recursive with
    | false => simp [hr]
    | true =>
      simp only [hr, if_true]
      have hcong : ∀ nws,
          fetch_recursive_nodes_with
              (fun iid lvl => query_index eng n query_bundle iid lvl) nws level =
            fetch_recursive_nodes_with
              (fun iid lvl => query_index eng n query_bundle iid lvl) nws level' := by
        intro nws
        cases hnode : nws.node with
        | plain t => simp only [fetch_recursive_nodes_with, hnode]
        | index t cid =>
          simp only [fetch_recursive_nodes_with, hnode]
          rw [ih query_bundle (some cid) (level + 1) (level' + 1)]
      rw [fetch_loop_congr _ _ hcong
        (eng.retrieve (resolveIndexId eng index_id?) query_bundle)]

/-- C10: the async entry point `_aquery` performs exactly the computation of the
sync entry point `_query` — both call `_query_index(query_bundle, None, 0)` with
no awaited step — so for equal inputs they return equal responses. -/
theorem graph_aquery_eq_graph_query (eng : GraphQueryEngine) (fuel : Nat)
    (query_bundle : QueryBundle) :
    graph_aquery eng fuel query_bundle = graph_query eng fuel query_bundle := rfl

end LlamaHub
